import Mathlib

/-!
Verification of the SocSIM core (`src/SOC/common/simulation.py`) against its
natural-language specification.

The Python module is shallowly embedded:

* a 2D numpy array is modelled either as a total function `Nat → Nat → α`
  together with its dimensions (for the boundary-cleaning routine, whose
  semantics is pure slice assignment), or as `List (List α)` where counting
  and concrete evaluation matter;
* the `Simulation` base class's mutable state is modelled by `SimState`
  (the `values` field and the `visited` mask);
* the capabilities a concrete model supplies by overriding `drive`,
  `topple` and `dissipate` are modelled by a record of pure state
  transformers (`ModelOps`), `topple` returning the boolean the Python
  method returns together with the mutated state;
* the unbounded `while self.topple()` loop is modelled with explicit fuel,
  `none` meaning the fuel ran out (the Python loop is unbounded by design);
* Python exceptions are modelled with `Except String`, the string naming
  the exception class raised.
-/

namespace SocSIM

/-! ## Boundary cleaning (`clean_boundary_inplace`)

The Python function body is

```
array[:boundary_size, :] = fill_value
array[-boundary_size:, :] = fill_value
array[:, :boundary_size] = fill_value
array[:, -boundary_size:] = fill_value
return array
```

A row index `i` (of `n` rows) is touched by `array[:b]` iff `i < b`, and by
`array[-b:]` iff `n - b ≤ i` when `b ≥ 1` — but when `b = 0` the slice
`array[-0:]` is `array[0:]`, the WHOLE axis.  `inSlice` captures exactly
this Python slicing semantics (Nat subtraction truncates at 0, matching the
clamping of out-of-range slice bounds). -/

/-- Whether index `i` along an axis of length `n` lies in
`array[:b] ∪ array[-b:]`, with Python slice semantics (`-0` = `0`). -/
def inSlice (n b i : Nat) : Bool :=
  decide (i < b) || (if b = 0 then true else decide (n - b ≤ i))

/-- The function `clean_boundary_inplace` on an `n × m` array, giving the
cell values after the four slice assignments (all four assign the same
`fill_value`, so a cell is `fill_value` iff some slice covers it). -/
def clean_boundary_inplace {α : Type} (n m b : Nat) (fill : α)
    (a : Nat → Nat → α) : Nat → Nat → α :=
  fun i j => if inSlice n b i || inSlice m b j then fill else a i j

/-! ## Simulation state and model capabilities -/

/-- The mutable state of a `Simulation` instance used by the core loop:
the `values` lattice and the boolean `visited` mask. -/
structure SimState where
  values : List (List Int)
  visited : List (List Bool)
deriving DecidableEq

/-- Resetting the visited mask to all-false (`self.visited[...] = False`),
preserving its shape. -/
def resetVisited (s : SimState) : SimState :=
  { s with visited := s.visited.map (fun row => row.map (fun _ => false)) }

/-- The number of `true` cells in the visited mask (`self.visited.sum()`). -/
def countVisited (s : SimState) : Nat :=
  (s.visited.map (fun row => row.count true)).sum

/-- The observables dictionary built by `AvalancheLoop` as
`dict(AvalancheSize=AvalancheSize, number_of_iterations=number_of_iterations)`;
field names are the Python dict keys. -/
structure Observables where
  AvalancheSize : Nat
  number_of_iterations : Nat
deriving DecidableEq

/-- The dict as the ordered key/value record `pandas.DataFrame` sees: the
column names of the tabular export of `data_acquisition`. -/
def Observables.toRecord (o : Observables) : List (String × Nat) :=
  [("AvalancheSize", o.AvalancheSize),
   ("number_of_iterations", o.number_of_iterations)]

/-- The operations a concrete model supplies by overriding
`drive`/`topple`/`dissipate`.  Each is a pure transformer of the simulation
state; `topple` also returns the truth value the Python method returns. -/
structure ModelOps where
  drive : SimState → SimState
  topple : SimState → Bool × SimState
  dissipate : SimState → SimState

/-- A model whose `topple` is a no-op returning false immediately; `drive`
and `dissipate` leave the state unchanged. -/
def noopModel : ModelOps where
  drive := id
  topple := fun s => (false, s)
  dissipate := id

/-! ## Base-class default methods (`Simulation.drive` etc.)

The base class's `drive` and `topple` bodies are a single
`raise NotImplementedError(...)`; `dissipate`'s body is `pass`. -/

/-- Base-class `Simulation.drive`: raises `NotImplementedError`. -/
def Simulation.drive : Except String Unit :=
  Except.error
    "NotImplementedError: Your model needs to override the drive method!"

/-- Base-class `Simulation.topple`: raises `NotImplementedError`. -/
def Simulation.topple : Except String Bool :=
  Except.error
    "NotImplementedError: Your model needs to override the topple method!"

/-- Base-class `Simulation.dissipate`: `pass` — returns normally and
leaves the state unchanged. -/
def Simulation.dissipate (s : SimState) : Except String SimState :=
  Except.ok s

/-! ## The avalanche relaxation loop (`Simulation.AvalancheLoop`) -/

/-- The `while self.topple(): self.dissipate(); number_of_iterations += 1`
loop, with fuel.  `k` is the running iteration counter; the returned state
is the state after the final (false-returning) `topple` call. -/
def relaxAux (M : ModelOps) : Nat → SimState → Nat → Option (SimState × Nat)
  | 0, _, _ => none
  | fuel + 1, s, k =>
    match M.topple s with
    | (false, s1) => some (s1, k)
    | (true, s1) => relaxAux M fuel (M.dissipate s1) (k + 1)

/-- The method `Simulation.AvalancheLoop`: reset the visited mask to all-false, topple
and dissipate until `topple` returns false, then return the observables
dictionary (`AvalancheSize = visited.sum()`, `number_of_iterations`)
together with the final state. -/
def AvalancheLoop (M : ModelOps) (fuel : Nat) (s : SimState) :
    Option (Observables × SimState) :=
  match relaxAux M fuel (resetVisited s) 0 with
  | none => none
  | some (s1, k) => some (⟨countVisited s1, k⟩, s1)

/-- Version of `relaxAux` instrumented to also record the visited mask after every
call to `topple`: the sequence of visited-mask updates an observer of the
loop sees. -/
def relaxAuxTrace (M : ModelOps) :
    Nat → SimState → Nat → List (List (List Bool)) →
    Option (SimState × Nat × List (List (List Bool)))
  | 0, _, _, _ => none
  | fuel + 1, s, k, tr =>
    match M.topple s with
    | (false, s1) => some (s1, k, tr ++ [s1.visited])
    | (true, s1) => relaxAuxTrace M fuel (M.dissipate s1) (k + 1) (tr ++ [s1.visited])

/-- Version of `AvalancheLoop` instrumented with the visited-mask update trace. -/
def AvalancheLoopTrace (M : ModelOps) (fuel : Nat) (s : SimState) :
    Option (Observables × SimState × List (List (List Bool))) :=
  match relaxAuxTrace M fuel (resetVisited s) 0 [] with
  | none => none
  | some (s1, k, tr) => some (⟨countVisited s1, k⟩, s1, tr)

/-! ## The simulation loop (`Simulation.run`) -/

/-- The all-zero frame `zarr.open` pre-fills each snapshot slot with,
shaped like the model's `values`. -/
def zeroFrameLike (s : SimState) : List (List Int) :=
  s.values.map (fun row => row.map (fun _ => 0))

/-- The `for i in tqdm.trange(N_iterations)` loop body of `run`: drive,
relax, append the observables record, and every `save_every`-th step write
`self.values` into the snapshot store at index `i // save_every`
(`_save_snapshot`).  A write beyond the pre-allocated store raises an
indexing error, as a fixed-shape zarr array does.  `n` is the number of
steps left, `i` the current step index, `acc` the `data_acquisition` list,
`store` the snapshot store. -/
def runLoop (M : ModelOps) (c fuel : Nat) :
    Nat → Nat → SimState → List Observables → List (List (List Int)) →
    Option (Except String (SimState × List Observables × List (List (List Int))))
  | 0, _, s, acc, store => some (Except.ok (s, acc, store))
  | n + 1, i, s, acc, store =>
    match AvalancheLoop M fuel (M.drive s) with
    | none => none
    | some (obs, s2) =>
      if i % c = 0 then
        if i / c < store.length then
          runLoop M c fuel n (i + 1) s2 (acc ++ [obs]) (store.set (i / c) s2.values)
        else some (Except.error "IndexError")
      else runLoop M c fuel n (i + 1) s2 (acc ++ [obs]) store

/-- The method `Simulation.run(N_iterations)` on a freshly constructed simulation
(`data_acquisition = []`).  Before the loop it pre-allocates the snapshot
store with `max(N_iterations // save_every, 1)` zero frames — evaluating
`N_iterations // self.save_every`, which raises `TypeError` when
`save_every` is `None` (and `ZeroDivisionError` when it is `0`), before
`drive` is ever called. -/
def run (M : ModelOps) (save_every : Option Nat) (fuel N : Nat) (s : SimState) :
    Option (Except String (SimState × List Observables × List (List (List Int)))) :=
  match save_every with
  | none => some (Except.error "TypeError")
  | some c =>
    if c = 0 then some (Except.error "ZeroDivisionError")
    else runLoop M c fuel N 0 s [] (List.replicate (max (N / c) 1) (zeroFrameLike s))

/-- Written from the spec's words (§4.4, §8): the observable records of `N`
driving steps in chronological step order — each step drives, then relaxes
to quiescence and yields one record. -/
def spec_observable_records (M : ModelOps) (fuel : Nat) :
    Nat → SimState → Option (List Observables × SimState)
  | 0, s => some ([], s)
  | n + 1, s =>
    match AvalancheLoop M fuel (M.drive s) with
    | none => none
    | some (o, s2) =>
      match spec_observable_records M fuel n s2 with
      | none => none
      | some (l, s3) => some (o :: l, s3)

end SocSIM

/-! ## Helper lemmas -/

theorem SocSIM.count_true_map_false (row : List Bool) :
    (row.map (fun _ => false)).count true = 0 := by
  simp [List.count_eq_zero]

theorem SocSIM.countVisited_resetVisited (s : SocSIM.SimState) :
    SocSIM.countVisited (SocSIM.resetVisited s) = 0 := by
  simp [SocSIM.countVisited, SocSIM.resetVisited, List.map_map, Function.comp,
    SocSIM.count_true_map_false, List.sum_eq_zero_iff, List.count_replicate]

/-! ## Claims -/

/-- C2: the claim states that `clean_boundary_inplace` with
`boundary_size = 0` leaves every cell unchanged.  It is false: the Python
slice `array[-0:, :]` is `array[0:, :]`, the whole array, so every cell is
overwritten with `fill_value`.  Concretely, on a `2 × 2` zero array with
`fill_value = 1`, cell `(0,0)` changes from `0` to `1`. -/
theorem C2_counterexample :
    SocSIM.clean_boundary_inplace 2 2 0 (1 : Nat) (fun _ _ => 0) 0 0 = 1
      ∧ (fun _ _ => (0 : Nat)) 0 0 = 0 := by
  constructor
  · decide
  · rfl

/-- C2 (amended): calling the boundary reset with `boundary_size = 0` is
not a no-op; it overwrites EVERY cell of the array with `fill_value`,
because the slice `array[-0:]` denotes the whole axis. -/
theorem C2_amended_zero_boundary_fills_everything {α : Type}
    (n m : Nat) (fill : α) (a : Nat → Nat → α) (i j : Nat) :
    SocSIM.clean_boundary_inplace n m 0 fill a i j = fill := by
  simp [SocSIM.clean_boundary_inplace, SocSIM.inSlice]

/-- C4: for a 2D array with `n, m ≥ 2·B` and boundary width `B ≥ 1`, after
`clean_boundary_inplace` every cell within `B` of an edge equals
`fill_value` and every interior cell is unchanged.  (The in-place mutation
and aliased return of the Python function are modelled by the function's
result being the post-call array.) -/
theorem C4_boundary_reset_correct {α : Type} (n m b : Nat) (fill : α)
    (a : Nat → Nat → α) (i j : Nat)
    (hb : 1 ≤ b) (_hn : 2 * b ≤ n) (_hm : 2 * b ≤ m)
    (_hi : i < n) (_hj : j < m) :
    (i < b ∨ n - b ≤ i ∨ j < b ∨ m - b ≤ j →
      SocSIM.clean_boundary_inplace n m b fill a i j = fill)
    ∧ (b ≤ i → i < n - b → b ≤ j → j < m - b →
      SocSIM.clean_boundary_inplace n m b fill a i j = a i j) := by
  have hbne : b ≠ 0 := Nat.one_le_iff_ne_zero.mp hb
  constructor
  · intro hcase
    simp only [SocSIM.clean_boundary_inplace, SocSIM.inSlice, if_neg hbne]
    rcases hcase with h | h | h | h <;> simp [h]
  · intro h1 h2 h3 h4
    simp only [SocSIM.clean_boundary_inplace, SocSIM.inSlice, if_neg hbne]
    have hni : ¬ (i < b) := Nat.not_lt.mpr h1
    have hnj : ¬ (j < b) := Nat.not_lt.mpr h3
    have hni2 : ¬ (n - b ≤ i) := Nat.not_le.mpr h2
    have hnj2 : ¬ (m - b ≤ j) := Nat.not_le.mpr h4
    simp [hni, hnj, hni2, hnj2]

/-- C4 witness: the theorem applied to a concrete `4 × 4` array with
`B = 1`, at a boundary cell and at an interior cell. -/
theorem C4_boundary_reset_correct_witness :
    (SocSIM.clean_boundary_inplace 4 4 1 (9 : Nat) (fun i j => i + 10 * j) 0 2 = 9)
    ∧ (SocSIM.clean_boundary_inplace 4 4 1 (9 : Nat) (fun i j => i + 10 * j) 2 2 = 22) := by
  constructor
  · exact (C4_boundary_reset_correct 4 4 1 9 (fun i j => i + 10 * j) 0 2
      (by decide) (by decide) (by decide) (by decide) (by decide)).1
      (Or.inl (by decide))
  · exact (C4_boundary_reset_correct 4 4 1 9 (fun i j => i + 10 * j) 2 2
      (by decide) (by decide) (by decide) (by decide) (by decide)).2
      (by decide) (by decide) (by decide) (by decide)

/-- C9: the boundary reset is idempotent — applying `clean_boundary_inplace`
twice (same dimensions, boundary width and fill value) yields the same
array as applying it once. -/
theorem C9_clean_boundary_idempotent {α : Type} (n m b : Nat) (fill : α)
    (a : Nat → Nat → α) :
    SocSIM.clean_boundary_inplace n m b fill
        (SocSIM.clean_boundary_inplace n m b fill a)
      = SocSIM.clean_boundary_inplace n m b fill a := by
  funext i j
  by_cases h : (SocSIM.inSlice n b i || SocSIM.inSlice m b j) = true
  · simp [SocSIM.clean_boundary_inplace, h]
  · simp [SocSIM.clean_boundary_inplace, h]

/-- C3 counterexample: the per-step record has no key `avalanche_size` —
the code's dict key is `AvalancheSize`. -/
theorem C3_counterexample :
    "avalanche_size" ∉ ((⟨0, 0⟩ : SocSIM.Observables).toRecord.map Prod.fst) := by
  decide

/-- C3 (amended): the record stores the avalanche size under the key
`AvalancheSize` (capitalised, not `avalanche_size`) and the topple-round
count under `number_of_iterations`; the tabular export of the accumulated
records therefore has columns `AvalancheSize` and `number_of_iterations`. -/
theorem C3_amended_record_keys (o : SocSIM.Observables) :
    o.toRecord.map Prod.fst = ["AvalancheSize", "number_of_iterations"]
    ∧ o.toRecord = [("AvalancheSize", o.AvalancheSize),
                    ("number_of_iterations", o.number_of_iterations)] :=
  ⟨rfl, rfl⟩

/-- C7: the base class's `drive` and `topple` raise `NotImplementedError`
at call time, while the base `dissipate` is `pass`: it raises nothing and
leaves the state unchanged. -/
theorem C7_default_capabilities :
    SocSIM.Simulation.drive
        = Except.error
            "NotImplementedError: Your model needs to override the drive method!"
    ∧ SocSIM.Simulation.topple
        = Except.error
            "NotImplementedError: Your model needs to override the topple method!"
    ∧ ∀ s : SocSIM.SimState, SocSIM.Simulation.dissipate s = Except.ok s :=
  ⟨rfl, rfl, fun _ => rfl⟩

/-- C10: for every model, fuel, iteration count and initial state, `run`
with `save_every = None` raises `TypeError` during snapshot pre-allocation
(`N_iterations // self.save_every`).  The result does not depend on the
model at all — in particular `drive` is never consulted, so the failure
happens before the first `drive` call and snapshotting cannot be disabled
via `save_every = None`. -/
theorem C10_save_every_none_type_error (M : SocSIM.ModelOps) (fuel N : Nat)
    (s : SocSIM.SimState) :
    SocSIM.run M none fuel N s = some (Except.error "TypeError") := rfl

/-- C1: with `N_iterations = 3` and `save_every = 2`, `run` pre-allocates
`max(3 // 2, 1) = 1` snapshot slot but attempts snapshot writes at steps 0
and 2 with snapshot indices 0 and 1; the write at step 2 is out of bounds,
so the run fails with an indexing error — refuting the claim that exactly
`max(N // c, 1)` writes occur and every write index is below capacity. -/
theorem C1_out_of_bounds_snapshot :
    SocSIM.run SocSIM.noopModel (some 2) 1 3 ⟨[[0]], [[false]]⟩
      = some (Except.error "IndexError")
    ∧ max (3 / 2) 1 = 1 ∧ 2 % 2 = 0 ∧ ¬ (2 / 2 < 1) :=
  ⟨rfl, rfl, rfl, by decide⟩

/-- C5: `AvalancheLoop` implements the specified state machine: it first
resets the visited mask to all-false, then while `topple` returns true it
calls `dissipate` and increments the iteration counter once per round; when
`topple` returns false it yields a record whose avalanche size is the count
of true cells in the visited mask and whose iteration count is the number
of rounds.  In particular, for a model whose `topple` is a no-op returning
false immediately, it yields avalanche size 0 and 0 iterations. -/
theorem C5_avalanche_state_machine :
    (∀ (M : SocSIM.ModelOps) (fuel : Nat) (s : SocSIM.SimState),
      SocSIM.AvalancheLoop M fuel s
        = match SocSIM.relaxAux M fuel (SocSIM.resetVisited s) 0 with
          | none => none
          | some (s1, k) => some (⟨SocSIM.countVisited s1, k⟩, s1))
    ∧ (∀ (M : SocSIM.ModelOps) (fuel k : Nat) (s : SocSIM.SimState),
      SocSIM.relaxAux M (fuel + 1) s k
        = match M.topple s with
          | (false, s1) => some (s1, k)
          | (true, s1) => SocSIM.relaxAux M fuel (M.dissipate s1) (k + 1))
    ∧ (∀ s : SocSIM.SimState,
        SocSIM.countVisited (SocSIM.resetVisited s) = 0)
    ∧ (∀ (fuel : Nat) (s : SocSIM.SimState),
      SocSIM.AvalancheLoop SocSIM.noopModel (fuel + 1) s
        = some (⟨0, 0⟩, SocSIM.resetVisited s)) := by
  refine ⟨fun M fuel s => rfl, fun M fuel k s => rfl,
    SocSIM.countVisited_resetVisited, fun fuel s => ?_⟩
  simp [SocSIM.AvalancheLoop, SocSIM.relaxAux, SocSIM.noopModel,
    SocSIM.countVisited_resetVisited]

/-- C8: `AvalancheLoop` is deterministic: for the same (deterministic)
`topple`/`dissipate` pair, two runs from states agreeing on `values` and
on the visited mask produce the identical sequence of visited-mask updates
and equal avalanche size and iteration count. -/
theorem C8_avalanche_deterministic (M : SocSIM.ModelOps) (fuel : Nat)
    (s1 s2 : SocSIM.SimState)
    (hv : s1.values = s2.values) (hm : s1.visited = s2.visited) :
    SocSIM.AvalancheLoopTrace M fuel s1 = SocSIM.AvalancheLoopTrace M fuel s2
    ∧ SocSIM.AvalancheLoop M fuel s1 = SocSIM.AvalancheLoop M fuel s2 := by
  have h : s1 = s2 := by cases s1; cases s2; simp_all
  rw [h]
  exact ⟨rfl, rfl⟩

/-- C8 witness: the theorem applied to two syntactically different but
componentwise equal concrete states. -/
theorem C8_avalanche_deterministic_witness :
    ((⟨[[1]], [[true]]⟩ : SocSIM.SimState).values
        = (⟨[[0 + 1]], [[false || true]]⟩ : SocSIM.SimState).values)
    ∧ ((⟨[[1]], [[true]]⟩ : SocSIM.SimState).visited
        = (⟨[[0 + 1]], [[false || true]]⟩ : SocSIM.SimState).visited)
    ∧ (SocSIM.AvalancheLoopTrace SocSIM.noopModel 1 ⟨[[1]], [[true]]⟩
        = SocSIM.AvalancheLoopTrace SocSIM.noopModel 1 ⟨[[0 + 1]], [[false || true]]⟩
      ∧ SocSIM.AvalancheLoop SocSIM.noopModel 1 ⟨[[1]], [[true]]⟩
        = SocSIM.AvalancheLoop SocSIM.noopModel 1 ⟨[[0 + 1]], [[false || true]]⟩) :=
  ⟨by decide, by decide,
    C8_avalanche_deterministic SocSIM.noopModel 1 _ _ (by decide) (by decide)⟩

/-- If `runLoop` returns normally, the records it appended to
`data_acquisition` are exactly the specification-side per-step records, in
chronological order. -/
theorem SocSIM.runLoop_ok_records (M : SocSIM.ModelOps) (c fuel : Nat) :
    ∀ (n i : Nat) (s : SocSIM.SimState) (acc : List SocSIM.Observables)
      (store : List (List (List Int))) (s2 : SocSIM.SimState)
      (recs : List SocSIM.Observables) (store2 : List (List (List Int))),
      SocSIM.runLoop M c fuel n i s acc store
          = some (Except.ok (s2, recs, store2)) →
      ∃ l, SocSIM.spec_observable_records M fuel n s = some (l, s2)
        ∧ recs = acc ++ l := by
  intro n
  induction n with
  | zero =>
    intro i s acc store s2 recs store2 h
    simp only [SocSIM.runLoop, Option.some.injEq, Except.ok.injEq,
      Prod.mk.injEq] at h
    obtain ⟨h1, h2, _⟩ := h
    exact ⟨[], by simp [SocSIM.spec_observable_records, h1], by simp [h2]⟩
  | succ n ih =>
    intro i s acc store s2 recs store2 h
    rw [SocSIM.runLoop] at h
    cases hA : SocSIM.AvalancheLoop M fuel (M.drive s) with
    | none =>
      rw [hA] at h
      simp at h
    | some p =>
      obtain ⟨obs, s1⟩ := p
      rw [hA] at h
      simp only at h
      by_cases hc : i % c = 0
      · rw [if_pos hc] at h
        by_cases hlt : i / c < store.length
        · rw [if_pos hlt] at h
          obtain ⟨l, hl, hr⟩ := ih (i + 1) s1 (acc ++ [obs]) _ s2 recs store2 h
          refine ⟨obs :: l, ?_, ?_⟩
          · simp [SocSIM.spec_observable_records, hA, hl]
          · simp [hr]
        · rw [if_neg hlt] at h
          simp at h
      · rw [if_neg hc] at h
        obtain ⟨l, hl, hr⟩ := ih (i + 1) s1 (acc ++ [obs]) store s2 recs store2 h
        refine ⟨obs :: l, ?_, ?_⟩
        · simp [SocSIM.spec_observable_records, hA, hl]
        · simp [hr]

/-- The specification-side record sequence of `n` steps has length `n`. -/
theorem SocSIM.spec_records_length (M : SocSIM.ModelOps) (fuel : Nat) :
    ∀ (n : Nat) (s s2 : SocSIM.SimState) (l : List SocSIM.Observables),
      SocSIM.spec_observable_records M fuel n s = some (l, s2) →
      l.length = n := by
  intro n
  induction n with
  | zero =>
    intro s s2 l h
    simp only [SocSIM.spec_observable_records, Option.some.injEq,
      Prod.mk.injEq] at h
    simp [← h.1]
  | succ n ih =>
    intro s s2 l h
    rw [SocSIM.spec_observable_records] at h
    cases hA : SocSIM.AvalancheLoop M fuel (M.drive s) with
    | none => rw [hA] at h; simp at h
    | some p =>
      obtain ⟨o, s1⟩ := p
      rw [hA] at h
      simp only at h
      cases hS : SocSIM.spec_observable_records M fuel n s1 with
      | none => rw [hS] at h; simp at h
      | some q =>
        obtain ⟨l1, s3⟩ := q
        rw [hS] at h
        simp only [Option.some.injEq, Prod.mk.injEq] at h
        have := ih s1 s3 l1 hS
        simp [← h.1, this]

/-- C6: a successful `run` of `N` steps on a freshly constructed simulation
(`data_acquisition = []`) appends exactly `N` observable records, which are
the per-step records in chronological order, and every record's avalanche
size and iteration count are nonnegative (they are counts). -/
theorem C6_run_record_count (M : SocSIM.ModelOps) (c fuel N : Nat)
    (s s2 : SocSIM.SimState) (recs : List SocSIM.Observables)
    (store2 : List (List (List Int)))
    (h : SocSIM.run M (some c) fuel N s = some (Except.ok (s2, recs, store2))) :
    recs.length = N
    ∧ SocSIM.spec_observable_records M fuel N s = some (recs, s2)
    ∧ ∀ r ∈ recs, 0 ≤ r.AvalancheSize ∧ 0 ≤ r.number_of_iterations := by
  rw [SocSIM.run] at h
  by_cases hc : c = 0
  · rw [if_pos hc] at h
    simp at h
  · rw [if_neg hc] at h
    obtain ⟨l, hl, hr⟩ :=
      SocSIM.runLoop_ok_records M c fuel N 0 s [] _ s2 recs store2 h
    have hrl : recs = l := by simpa using hr
    subst hrl
    exact ⟨SocSIM.spec_records_length M fuel N s s2 recs hl, hl,
      fun r _ => ⟨Nat.zero_le _, Nat.zero_le _⟩⟩

/-- C6 witness: a concrete 3-step run of the no-op model with
`save_every = 5`, checked by evaluation. -/
theorem C6_run_record_count_witness :
    SocSIM.run SocSIM.noopModel (some 5) 1 3 ⟨[[0]], [[false]]⟩
        = some (Except.ok (⟨[[0]], [[false]]⟩,
            [⟨0, 0⟩, ⟨0, 0⟩, ⟨0, 0⟩], [[[0]]]))
    ∧ ([(⟨0, 0⟩ : SocSIM.Observables), ⟨0, 0⟩, ⟨0, 0⟩].length = 3
      ∧ SocSIM.spec_observable_records SocSIM.noopModel 1 3 ⟨[[0]], [[false]]⟩
          = some ([⟨0, 0⟩, ⟨0, 0⟩, ⟨0, 0⟩], ⟨[[0]], [[false]]⟩)
      ∧ ∀ r ∈ [(⟨0, 0⟩ : SocSIM.Observables), ⟨0, 0⟩, ⟨0, 0⟩],
          0 ≤ r.AvalancheSize ∧ 0 ≤ r.number_of_iterations) :=
  ⟨by rfl, C6_run_record_count SocSIM.noopModel 5 1 3 _ _ _ _ (by rfl)⟩
